import Mathlib

/-!
Verification of the icon-dex `Converter` contract
(`src/contracts/converter/converter.py`) against its natural-language
specification, by a shallow embedding of the contract into Lean.

Modelling conventions:
* ICON addresses are modelled as `Nat` (0 plays the role of the zero /
  invalid address, matching `require_valid_address`).
* Python integers are unbounded, so all amounts are `Int`; Python's
  floor division `//` is `Int.fdiv`.
* The persistent `VarDB`/`ArrayDB` store becomes an explicit `State`
  record; `Connector` records keep the source field names.  A `VarDB`
  that was never written reads as its zero value, which is the default
  `Connector` (all fields `0` / `false`).
* `revert` (raised by `require`) is modelled by the `Res.err` constructor,
  which carries the state at the moment the revert was raised.  The ICON
  host discards that state (transactional rollback), which the sequencing
  function `runOp` implements by restoring the pre-call state.
* External collaborators (the formula module, token contracts, the score
  registry, the `Managed` / `FlexibleTokenController` base classes and the
  `utils` helpers) are not under `src/`; they are modelled from the spec
  where a claim depends on them, as marked in the individual doc comments.
-/

namespace IconDex

/-- `Converter._MAX_WEIGHT` (source line 94). -/
def MAX_WEIGHT : Int := 1000000

/-- `Converter._MAX_CONVERSION_FEE` class constant (source line 95). -/
def MAX_CONVERSION_FEE : Int := 1000000

/-- One connector's record, mirroring the `Connector` wrapper class
(source lines 37-52): virtual balance, ppm weight, virtual-balance flag,
purchase flag, and the `is_set` presence marker. -/
structure Connector where
  virtual_balance : Int
  weight : Int
  is_virtual_balance_enabled : Bool
  is_purchase_enabled : Bool
  is_set : Bool
deriving DecidableEq

/-- The zero record an untouched `VarDB` group reads as. -/
def Connector.default : Connector := ⟨0, 0, false, false, false⟩

/-- Rebuild a connector with a new `virtual_balance`
(`connector.virtual_balance.set`). -/
def Connector.setVB (c : Connector) (v : Int) : Connector :=
  ⟨v, c.weight, c.is_virtual_balance_enabled, c.is_purchase_enabled, c.is_set⟩

/-- Rebuild a connector with a new `is_purchase_enabled`
(`connector.is_purchase_enabled.set`). -/
def Connector.setPE (c : Connector) (e : Bool) : Connector :=
  ⟨c.virtual_balance, c.weight, c.is_virtual_balance_enabled, e, c.is_set⟩

/-- The events the converter emits (source lines 97-125 and spec §6). -/
inductive Event where
  | Conversion (fromToken toToken trader : Nat) (amount ret fee : Int)
  | PriceDataUpdate (tok : Nat) (supply balance weight : Int)
  | ConversionFeeUpdate (prevFee newFee : Int)
  | ConversionsEnable (enabled : Bool)
deriving DecidableEq

/-- The whole converter state: the contract's own `VarDB`s/`ArrayDB`
(source lines 156-176) together with the collaborator state the claims
need.  `token`, `owner`, `manager`, `self_address` and `active` model the
`FlexibleTokenController` / `Managed` base classes (not under `src/`,
modelled from spec §3 "Activation state" and §4.5); `flexible_supply` and
`real_balances` model the external token ledgers of spec §6;
`events` records the reporting sink. -/
structure State where
  allow_registry_update : Bool
  prev_registry : Nat
  registry : Nat
  connector_tokens : List Nat
  total_connector_weight : Int
  max_conversion_fee : Int
  conversion_fee : Int
  conversions_enabled : Bool
  connectors : Nat → Connector
  token : Nat
  owner : Nat
  manager : Nat
  self_address : Nat
  active : Bool
  flexible_supply : Int
  real_balances : Nat → Int
  events : List Event

/-- Point update of the connector table (`self._connectors[tok]` writes). -/
def setConn (st : State) (tok : Nat) (c : Connector) : State :=
  { st with connectors := fun a => if a = tok then c else st.connectors a }

/-- Append one event to the reporting sink. -/
def emit (st : State) (e : Event) : State :=
  { st with events := st.events ++ [e] }

/-- Result of an externally callable operation: `ok` carries the post
state and the returned integer (0 for `None`-returning operations);
`err` carries the revert message and the state at the moment of the
revert, which the host then discards. -/
inductive Res where
  | ok (st : State) (ret : Int)
  | err (st : State) (msg : String)

/-- `true` iff the operation completed without reverting. -/
def Res.isOk : Res → Bool
  | .ok _ _ => true
  | .err _ _ => false

/-- The caller-observable outcome: the returned amount, or the revert
message.  The carried states are forgotten. -/
def Res.outcome : Res → Except String Int
  | .ok _ r => .ok r
  | .err _ m => .error m

/-- The state carried by the result (post state on success, raise-time
state on failure). -/
def Res.state : Res → State
  | .ok s _ => s
  | .err s _ => s

/-- Host-level sequencing: a revert rolls the state back. -/
def Res.commit (r : Res) (pre : State) : State :=
  match r with
  | .ok s _ => s
  | .err _ _ => pre

/-- Modelled from the spec: `utils.safe_sub` (the `utility.utils` module
is not under `src/`).  §4.4 requires virtual-balance decreases to treat
underflow as a revert, never clamping. -/
def safe_sub (a b : Int) : Except String Int :=
  if b ≤ a then .ok (a - b) else .error "subtraction underflow"

/-- Modelled from the spec: `utils.is_valid_address` / `require_valid_address`
(not under `src/`): an identity is valid iff it is not the null identity. -/
def is_valid_address (a : Nat) : Bool := a ≠ 0

/-- `Converter.getFinalAmount` (source lines 829-839): the fee-adjusted
amount.  Note the divisor and the ratio both use the class constant
`_MAX_CONVERSION_FEE`, not the installed `_max_conversion_fee`. -/
def getFinalAmount (st : State) (amount : Int) (magnitude : Nat) : Int :=
  Int.fdiv (amount * (MAX_CONVERSION_FEE - st.conversion_fee) ^ magnitude)
    (MAX_CONVERSION_FEE ^ magnitude)

/-- The fee formula exactly as the spec words it (§4.3), parameterised by
the `maxConversionFee` the spec says is "fixed at installation":
`rawAmount * ratio^magnitude // maxConversionFee^magnitude`.  Used only to
compare the spec's wording with the source's `getFinalAmount`. -/
def finalAmountSpec (raw : Int) (magnitude : Nat) (fee maxFee : Int) : Int :=
  Int.fdiv (raw * (maxFee - fee) ^ magnitude) (maxFee ^ magnitude)

/-- `effectiveBalance`: the value `getConnectorBalance` returns once its
presence check has passed (source lines 799-805). -/
def effectiveBalance (st : State) (tok : Nat) : Int :=
  if (st.connectors tok).is_virtual_balance_enabled then
    (st.connectors tok).virtual_balance
  else
    st.real_balances tok

/-- `Converter.getConnectorBalance` (source lines 788-805), including its
`_require_valid_connector` check. -/
def getConnectorBalance (st : State) (tok : Nat) : Except String Int :=
  if (st.connectors tok).is_set then .ok (effectiveBalance st tok)
  else .error "invalid connector"

/-- Modelled from the spec: `formula.calculate_sale_return`
(`contracts/formula/formula.py` is not under `src/`).  §4.2 fixes its
boundary behaviour: the result is 0 for a zero sell amount and exactly
`balance` when `amount = supply` ("full redemption drains the reserve
exactly, no more, no less"); the interior of the curve relies on the
high-precision power routine that §1 explicitly excludes, so it is taken
here as the parameter `pow_sale`. -/
def calculate_sale_return (pow_sale : Int → Int → Int → Int → Int)
    (supply balance weight amount : Int) : Int :=
  if amount = 0 then 0
  else if amount = supply then balance
  else pow_sale supply balance weight amount

/-- The external collaborators of spec §6 that the converter calls but
whose code is not under `src/`: the bonding-curve formula module
(purchase and cross-connector returns, and the power routine inside the
sale return) and the registry resolver (`getAddress` of the registry
contract currently installed at a given address). -/
structure Ext where
  calculate_purchase_return : Int → Int → Int → Int → Int
  pow_sale : Int → Int → Int → Int → Int
  calculate_cross_connector_return : Int → Int → Int → Int → Int → Int
  getAddress : Nat → Nat

/-- `Converter.get_purchase_return` (source lines 431-458): active and
presence checks, the purchase-enabled gate, then the curve on the
effective balance (reduced by the incoming amount when called from a
conversion) and the fee adjustment at magnitude 1. -/
def get_purchase_return (ext : Ext) (st : State) (tok : Nat) (amount : Int)
    (from_conversion : Bool) : Except String (Int × Int) :=
  if st.active = false then .error "not active"
  else if (st.connectors tok).is_set = false then .error "invalid connector"
  else if (st.connectors tok).is_purchase_enabled = false then
    .error "required purchase enabled"
  else
    let token_supply := st.flexible_supply
    let connector_balance :=
      if from_conversion then effectiveBalance st tok - amount
      else effectiveBalance st tok
    let calculated := ext.calculate_purchase_return token_supply
      connector_balance (st.connectors tok).weight amount
    let final := getFinalAmount st calculated 1
    match safe_sub calculated final with
    | .error m => .error m
    | .ok fee => .ok (final, fee)

/-- `Converter.get_sale_return` (source lines 460-482): active and
presence checks, the sale curve on the effective balance, and the fee
adjustment at magnitude 1.  No purchase-enabled check. -/
def get_sale_return (ext : Ext) (st : State) (tok : Nat) (amount : Int) :
    Except String (Int × Int) :=
  if st.active = false then .error "not active"
  else if (st.connectors tok).is_set = false then .error "invalid connector"
  else
    let token_supply := st.flexible_supply
    let connector_balance := effectiveBalance st tok
    let calculated := calculate_sale_return ext.pow_sale token_supply
      connector_balance (st.connectors tok).weight amount
    let final := getFinalAmount st calculated 1
    match safe_sub calculated final with
    | .error m => .error m
    | .ok fee => .ok (final, fee)

/-- `Converter.get_cross_connector_return` (source lines 484-516): active
and presence checks for both connectors, the purchase-enabled gate on the
destination only, then the cross curve (source balance reduced by the
incoming amount when called from a conversion) and the fee adjustment at
magnitude 2. -/
def get_cross_connector_return (ext : Ext) (st : State) (fromTok toTok : Nat)
    (amount : Int) (from_conversion : Bool) : Except String (Int × Int) :=
  if st.active = false then .error "not active"
  else if (st.connectors fromTok).is_set = false then .error "invalid connector"
  else if (st.connectors toTok).is_set = false then .error "invalid connector"
  else if (st.connectors toTok).is_purchase_enabled = false then
    .error "required purchase enabled"
  else
    let from_balance :=
      if from_conversion then effectiveBalance st fromTok - amount
      else effectiveBalance st fromTok
    let to_balance := effectiveBalance st toTok
    let calculated := ext.calculate_cross_connector_return from_balance
      (st.connectors fromTok).weight to_balance (st.connectors toTok).weight
      amount
    let final := getFinalAmount st calculated 2
    match safe_sub calculated final with
    | .error m => .error m
    | .ok fee => .ok (final, fee)

/-- The buy-side virtual-balance increase (source lines 300-303). -/
def buySourceAdjusted (st : State) (tok : Nat) (amount : Int) : State :=
  if (st.connectors tok).is_virtual_balance_enabled then
    setConn st tok
      ((st.connectors tok).setVB
        ((st.connectors tok).virtual_balance + amount))
  else st

/-- The presence flag survives the buy-side virtual-balance increase. -/
lemma buySourceAdjusted_is_set (st : State) (tok a : Nat) (amount : Int) :
    ((buySourceAdjusted st tok amount).connectors a).is_set =
      (st.connectors a).is_set := by
  unfold buySourceAdjusted
  split
  · by_cases hat : a = tok
    · subst hat
      simp [setConn, Connector.setVB]
    · simp [setConn, hat]
  · rfl

/-- The mutation-and-report tail of `_buy` (source lines 300-321), run
once the quote and slippage checks have passed: virtual-balance increase,
external `issue` (modelled as a supply increase, spec §6), then the
`Conversion` and `PriceDataUpdate` events, the latter reading the
post-trade supply and connector balance as the source does. -/
def buyPerform (st : State) (trader tok : Nat) (amount ra fee : Int) : Res :=
  let st2 := { buySourceAdjusted st tok amount with flexible_supply :=
    (buySourceAdjusted st tok amount).flexible_supply + ra }
  let st3 := emit st2 (.Conversion tok st.token trader amount ra fee)
  match getConnectorBalance st3 tok with
  | .error m => .err st3 m
  | .ok bal =>
    .ok (emit st3 (.PriceDataUpdate tok st3.flexible_supply bal
          ((st3.connectors tok).weight))) ra

/-- `Converter._buy` (source lines 283-321): quote with the deposit
already excluded from the balance, slippage check, then the
mutation-and-report tail. -/
def _buy (ext : Ext) (st : State) (trader tok : Nat) (amount min_return : Int) :
    Res :=
  match get_purchase_return ext st tok amount true with
  | .error m => .err st m
  | .ok (return_amount, fee_amount) =>
    if return_amount < min_return then
      .err st "returning amount less than minimum requested amount"
    else buyPerform st trader tok amount return_amount fee_amount

/-- The mutation-and-report tail of `_sell` (source lines 357-376), run
after every check has passed and the virtual balance (if enabled) has
been decreased to the state `st1`: external `destroy` (supply decrease)
and `transfer` (converter's real holding decrease), then the events. -/
def sellApply (st st1 : State) (trader tok : Nat) (amount ra fee : Int) : Res :=
  let st2 := { st1 with flexible_supply := st1.flexible_supply - amount }
  let st3 := { st2 with real_balances := fun a =>
    if a = tok then st2.real_balances a - ra else st2.real_balances a }
  let st4 := emit st3 (.Conversion st.token tok trader amount ra fee)
  match getConnectorBalance st4 tok with
  | .error m => .err st4 m
  | .ok bal =>
    .ok (emit st4 (.PriceDataUpdate tok st4.flexible_supply bal
          ((st4.connectors tok).weight))) ra

/-- The part of `_sell` after the slippage check (source lines 340-376):
the connector-balance depletion condition, the virtual-balance decrease
through `safe_sub`, then the mutation-and-report tail. -/
def sellGuarded (st : State) (trader tok : Nat) (amount ra fee : Int) : Res :=
  match getConnectorBalance st tok with
  | .error m => .err st m
  | .ok connector_balance =>
    if ra < connector_balance ∨
        (ra = connector_balance ∧ amount = st.flexible_supply) then
      match (if (st.connectors tok).is_virtual_balance_enabled then
          match safe_sub (st.connectors tok).virtual_balance ra with
          | .error m => .error m
          | .ok v => .ok (setConn st tok ((st.connectors tok).setVB v))
        else .ok st : Except String State) with
      | .error m => .err st m
      | .ok st1 => sellApply st st1 trader tok amount ra fee
    else .err st "returning amount does not meet connector balance condition"

/-- `Converter._sell` (source lines 323-376): quote, slippage check, then
the guarded depletion condition and the mutation tail. -/
def _sell (ext : Ext) (st : State) (trader tok : Nat) (amount min_return : Int) :
    Res :=
  match get_sale_return ext st tok amount with
  | .error m => .err st m
  | .ok (return_amount, fee_amount) =>
    if return_amount < min_return then
      .err st "returning amount less than minimum requested amount"
    else sellGuarded st trader tok amount return_amount fee_amount

/-- The transfer-and-report tail of the cross path (source lines
413-429), run after the depletion check has passed on the twice-updated
state `st2`. -/
def crossApply (st2 : State) (trader fromTok toTok : Nat)
    (amount ra fee : Int) : Res :=
  let st3 := { st2 with real_balances := fun a =>
    if a = toTok then st2.real_balances a - ra else st2.real_balances a }
  let st4 := emit st3 (.Conversion fromTok toTok trader amount ra fee)
  let token_supply := st4.flexible_supply
  match getConnectorBalance st4 fromTok with
  | .error m => .err st4 m
  | .ok from_bal =>
    let st5 := emit st4 (.PriceDataUpdate fromTok token_supply from_bal
      ((st4.connectors fromTok).weight))
    match getConnectorBalance st5 toTok with
    | .error m => .err st5 m
    | .ok to_bal =>
      .ok (emit st5 (.PriceDataUpdate toTok token_supply to_bal
            ((st5.connectors toTok).weight))) ra

/-- The cross-path depletion check (source lines 409-412), evaluated on
the state `st2` in which both virtual balances have already been
adjusted. -/
def crossChecked (st2 : State) (trader fromTok toTok : Nat)
    (amount ra fee : Int) : Res :=
  match getConnectorBalance st2 toTok with
  | .error m => .err st2 m
  | .ok to_connector_balance =>
    if ra < to_connector_balance then
      crossApply st2 trader fromTok toTok amount ra fee
    else .err st2 "returning amount does not meet connector balance condition"

/-- The source-side virtual-balance increase of the cross path (source
lines 400-403). -/
def crossSourceAdjusted (st : State) (fromTok : Nat) (amount : Int) : State :=
  if (st.connectors fromTok).is_virtual_balance_enabled then
    setConn st fromTok
      ((st.connectors fromTok).setVB
        ((st.connectors fromTok).virtual_balance + amount))
  else st

/-- The mutation part of the cross path (source lines 400-412): source
virtual balance increased, then destination virtual balance decreased,
and only then the depletion check — the check runs on the already-mutated
state. -/
def crossPerform (st : State) (trader fromTok toTok : Nat)
    (amount ra fee : Int) : Res :=
  match (if Connector.is_virtual_balance_enabled
        ((crossSourceAdjusted st fromTok amount).connectors toTok) then
      match safe_sub (Connector.virtual_balance
          ((crossSourceAdjusted st fromTok amount).connectors toTok)) ra with
      | .error m => .error m
      | .ok v => .ok (setConn (crossSourceAdjusted st fromTok amount) toTok
          (((crossSourceAdjusted st fromTok amount).connectors toTok).setVB v))
    else .ok (crossSourceAdjusted st fromTok amount) : Except String State) with
  | .error m => .err (crossSourceAdjusted st fromTok amount) m
  | .ok st2 => crossChecked st2 trader fromTok toTok amount ra fee

/-- `Converter._convert_cross_connector` (source lines 378-429): quote at
fee magnitude 2, slippage check, then the mutations and the
late depletion check. -/
def _convert_cross_connector (ext : Ext) (st : State)
    (trader fromTok toTok : Nat) (amount min_return : Int) : Res :=
  match get_cross_connector_return ext st fromTok toTok amount true with
  | .error m => .err st m
  | .ok (return_amount, fee_amount) =>
    if return_amount < min_return then
      .err st "returning amount less than minimum requested amount"
    else crossPerform st trader fromTok toTok amount return_amount fee_amount

/-- `Converter._convert` (source lines 252-281): the global
conversions-enabled gate, positivity of `minReturn`, distinctness of the
two tokens, then dispatch to BUY / SELL / CROSS on whether either side is
the flexible token. -/
def _convert (ext : Ext) (st : State) (trader fromTok toTok : Nat)
    (amount min_return : Int) : Res :=
  if st.conversions_enabled = false then .err st "required conversions enabled"
  else if min_return ≤ 0 then .err st "invalid value"
  else if fromTok = toTok then
    .err st "from token and to token must not be same"
  else if toTok = st.token then _buy ext st trader fromTok amount min_return
  else if fromTok = st.token then _sell ext st trader toTok amount min_return
  else _convert_cross_connector ext st trader fromTok toTok amount min_return

/-- `Converter.addConnector` (source lines 518-547): owner-only while
inactive; address validity, weight range, not the flexible token, not
already set, and the total-weight ceiling — all checked before the five
field writes, the append to `connector_tokens` and the total update. -/
def addConnector (st : State) (caller tok : Nat) (weight : Int)
    (enable_virtual_balance : Bool) : Res :=
  if caller ≠ st.owner then .err st "only owner"
  else if st.active then .err st "requires inactive"
  else if is_valid_address tok = false then .err st "invalid address"
  else if tok = st.self_address then .err st "must not be self"
  else if ¬(0 < weight ∧ weight ≤ MAX_WEIGHT) then
    .err st "invalid connector weight"
  else if st.token = tok then
    .err st "the input token should not be the flexible token"
  else if (st.connectors tok).is_set then
    .err st "the input token has already been set"
  else if ¬(st.total_connector_weight + weight ≤ MAX_WEIGHT) then
    .err st "total connector weight is overflow"
  else
    let st1 := setConn st tok ⟨0, weight, enable_virtual_balance, true, true⟩
    let st2 := { st1 with connector_tokens := st1.connector_tokens ++ [tok] }
    .ok { st2 with total_connector_weight :=
            st2.total_connector_weight + weight } 0

/-- `Converter.updateConnector` (source lines 549-574): owner-only;
presence and weight-range checks, the recomputed total-weight ceiling,
then the total update and the three field writes. -/
def updateConnector (st : State) (caller tok : Nat) (weight : Int)
    (enable_virtual_balance : Bool) (virtual_balance : Int) : Res :=
  if caller ≠ st.owner then .err st "only owner"
  else if (st.connectors tok).is_set = false then .err st "invalid connector"
  else if ¬(0 < weight ∧ weight ≤ MAX_WEIGHT) then
    .err st "invalid connector weight"
  else if ¬(st.total_connector_weight - (st.connectors tok).weight + weight
      ≤ MAX_WEIGHT) then
    .err st "total connector weight is overflow"
  else
    .ok (setConn
      { st with total_connector_weight :=
          st.total_connector_weight - (st.connectors tok).weight + weight } tok
      ⟨virtual_balance, weight, enable_virtual_balance,
        (st.connectors tok).is_purchase_enabled, (st.connectors tok).is_set⟩) 0

/-- `Converter.disableConnectorPurchases` (source lines 576-589):
owner-only; presence check; sets `is_purchase_enabled` to the negation of
the argument.  Selling is untouched. -/
def disableConnectorPurchases (st : State) (caller tok : Nat) (disable : Bool) :
    Res :=
  if caller ≠ st.owner then .err st "only owner"
  else if (st.connectors tok).is_set = false then .err st "invalid connector"
  else .ok (setConn st tok ((st.connectors tok).setPE (!disable))) 0

/-- `Converter.updateRegistry` (source lines 591-612): allowed when the
update flag is on **or** the caller is the owner; resolves the new
registry through the current one, refuses the null identity and an
unchanged address, then shifts current into previous and adopts the new
one. -/
def updateRegistry (ext : Ext) (st : State) (caller : Nat) : Res :=
  if ¬(st.allow_registry_update = true ∨ caller = st.owner) then
    .err st "should be allowed updating or caller is the owner"
  else
    let new_registry := ext.getAddress st.registry
    if is_valid_address new_registry = false then .err st "invalid address"
    else if new_registry = st.registry then
      .err st "new registry should not be same with old one"
    else
      .ok { st with prev_registry := st.registry, registry := new_registry } 0

/-- `Converter.restoreRegistry` (source lines 614-626): owner or manager;
restores the previous registry and turns the update flag off. -/
def restoreRegistry (st : State) (caller : Nat) : Res :=
  if ¬(caller = st.owner ∨ caller = st.manager) then
    .err st "only owner or manager"
  else
    .ok { st with registry := st.prev_registry,
                  allow_registry_update := false } 0

/-- `Converter.disableRegistryUpdate` (source lines 628-639): owner or
manager; sets the update flag to the negation of the argument. -/
def disableRegistryUpdate (st : State) (caller : Nat) (disable : Bool) : Res :=
  if ¬(caller = st.owner ∨ caller = st.manager) then
    .err st "only owner or manager"
  else
    .ok { st with allow_registry_update := !disable } 0

/-- `Converter.disableConversions` (source lines 641-655): owner or
manager; only when the stored flag equals the argument does it flip the
flag to the negation and emit one `ConversionsEnable` event. -/
def disableConversions (st : State) (caller : Nat) (disable : Bool) : Res :=
  if ¬(caller = st.owner ∨ caller = st.manager) then
    .err st "only owner or manager"
  else if st.conversions_enabled = disable then
    let enable := !disable
    .ok (emit { st with conversions_enabled := enable }
          (.ConversionsEnable enable)) 0
  else
    .ok st 0

/-- One admin call on the connector table, with its caller and arguments
(for claim C2's arbitrary call sequences). -/
inductive AdminOp where
  | add (caller tok : Nat) (weight : Int) (evb : Bool)
  | update (caller tok : Nat) (weight : Int) (evb : Bool) (vb : Int)

/-- Execute one admin call under the host's transactional semantics: a
revert restores the pre-call state. -/
def runOp (st : State) (op : AdminOp) : State :=
  match op with
  | .add c t w e => (addConnector st c t w e).commit st
  | .update c t w e v => (updateConnector st c t w e v).commit st

/-- Execute a sequence of admin calls. -/
def runOps (st : State) (ops : List AdminOp) : State :=
  ops.foldl runOp st

/-- Sum of the weights of the connectors listed in `connector_tokens`. -/
def sumWeights (st : State) : Int :=
  (st.connector_tokens.map (fun a => (st.connectors a).weight)).sum

/-- The registry bookkeeping invariant of spec §3: the token list has no
duplicates and enumerates exactly the present (`is_set`) connectors, the
stored total weight is the sum of their weights, and it never exceeds
1,000,000. -/
def Inv (st : State) : Prop :=
  st.connector_tokens.Nodup ∧
  (∀ a, (st.connectors a).is_set = true ↔ a ∈ st.connector_tokens) ∧
  st.total_connector_weight = sumWeights st ∧
  st.total_connector_weight ≤ MAX_WEIGHT

/-- The state right after `on_install` (source lines 178-205) with no
initial connector (an initial connector is just an `addConnector` call):
registry pointers set, updates allowed, conversions enabled, empty
connector table, zero total weight, inactive. -/
def installState (tokenA registryA ownerA managerA selfA : Nat)
    (maxFee : Int) : State where
  allow_registry_update := true
  prev_registry := registryA
  registry := registryA
  connector_tokens := []
  total_connector_weight := 0
  max_conversion_fee := maxFee
  conversion_fee := 0
  conversions_enabled := true
  connectors := fun _ => Connector.default
  token := tokenA
  owner := ownerA
  manager := managerA
  self_address := selfA
  active := false
  flexible_supply := 0
  real_balances := fun _ => 0
  events := []

/-- A concrete collaborator bundle for witnesses: the purchase and sale
curves return 10, the cross curve 40, registry resolution 7. -/
def extW : Ext :=
  ⟨fun _ _ _ _ => 10, fun _ _ _ _ => 10, fun _ _ _ _ _ => 40, fun _ => 7⟩

/-- Like `extW` but the cross curve returns 10 (small enough for a
successful cross conversion). -/
def extW2 : Ext :=
  ⟨fun _ _ _ _ => 10, fun _ _ _ _ => 10, fun _ _ _ _ _ => 10, fun _ => 7⟩

/-- A concrete active converter with two virtual-balance connectors, at
addresses 3 (weight 500000, virtual balance 100) and 4 (weight 300000,
virtual balance 50); flexible supply 50, no fee. -/
def stW : State :=
  { installState 100 5 1 2 99 1000000 with
    active := true
    flexible_supply := 50
    connector_tokens := [3, 4]
    total_connector_weight := 800000
    connectors := fun a =>
      if a = 3 then ⟨100, 500000, true, true, true⟩
      else if a = 4 then ⟨50, 300000, true, true, true⟩
      else Connector.default
    real_balances := fun _ => 1000 }

/-- A converter state whose installed `_max_conversion_fee` is 500000 and
whose current fee is 100000 (a legal fee state). -/
def stC1 : State :=
  { installState 100 5 1 2 99 500000 with conversion_fee := 100000 }

/-- A converter state with a nonzero conversion fee of 1 ppm. -/
def stC7 : State :=
  { installState 100 5 1 2 99 1000000 with conversion_fee := 1 }

/-- The state reached from a fresh install by adding connector 3 at
weight 400,000 and then updating it to weight 900,000 (for the C2
witness). -/
def stC2 : State :=
  runOps (installState 100 5 1 2 99 30000)
    [AdminOp.add 1 3 400000 true, AdminOp.update 1 3 900000 true 77]

/-- The state `disableConnectorPurchases` leaves behind: only the
`is_purchase_enabled` flag of the given connector changes. -/
def setPurchaseEnabled (st : State) (tok : Nat) (e : Bool) : State :=
  setConn st tok ((st.connectors tok).setPE e)

section Lemmas

@[simp] lemma setConn_connectors (st : State) (tok : Nat) (c : Connector)
    (a : Nat) :
    (setConn st tok c).connectors a = if a = tok then c else st.connectors a :=
  rfl

@[simp] lemma setConn_real_balances (st : State) (tok : Nat) (c : Connector) :
    (setConn st tok c).real_balances = st.real_balances := rfl

@[simp] lemma setConn_flexible_supply (st : State) (tok : Nat) (c : Connector) :
    (setConn st tok c).flexible_supply = st.flexible_supply := rfl

@[simp] lemma setConn_conversion_fee (st : State) (tok : Nat) (c : Connector) :
    (setConn st tok c).conversion_fee = st.conversion_fee := rfl

@[simp] lemma setConn_active (st : State) (tok : Nat) (c : Connector) :
    (setConn st tok c).active = st.active := rfl

@[simp] lemma setConn_connector_tokens (st : State) (tok : Nat) (c : Connector) :
    (setConn st tok c).connector_tokens = st.connector_tokens := rfl

@[simp] lemma setConn_total (st : State) (tok : Nat) (c : Connector) :
    (setConn st tok c).total_connector_weight = st.total_connector_weight := rfl

@[simp] lemma emit_connectors (st : State) (e : Event) :
    (emit st e).connectors = st.connectors := rfl

@[simp] lemma emit_real_balances (st : State) (e : Event) :
    (emit st e).real_balances = st.real_balances := rfl

@[simp] lemma emit_flexible_supply (st : State) (e : Event) :
    (emit st e).flexible_supply = st.flexible_supply := rfl

@[simp] lemma setVB_fields (c : Connector) (v : Int) :
    (c.setVB v).virtual_balance = v ∧ (c.setVB v).weight = c.weight ∧
    (c.setVB v).is_virtual_balance_enabled = c.is_virtual_balance_enabled ∧
    (c.setVB v).is_purchase_enabled = c.is_purchase_enabled ∧
    (c.setVB v).is_set = c.is_set :=
  ⟨rfl, rfl, rfl, rfl, rfl⟩

@[simp] lemma setVB_virtual_balance (c : Connector) (v : Int) :
    (c.setVB v).virtual_balance = v := rfl

@[simp] lemma setVB_weight (c : Connector) (v : Int) :
    (c.setVB v).weight = c.weight := rfl

@[simp] lemma setVB_is_virtual (c : Connector) (v : Int) :
    (c.setVB v).is_virtual_balance_enabled = c.is_virtual_balance_enabled := rfl

@[simp] lemma setVB_is_purchase_enabled (c : Connector) (v : Int) :
    (c.setVB v).is_purchase_enabled = c.is_purchase_enabled := rfl

@[simp] lemma setVB_is_set (c : Connector) (v : Int) :
    (c.setVB v).is_set = c.is_set := rfl

@[simp] lemma setPE_virtual_balance (c : Connector) (e : Bool) :
    (c.setPE e).virtual_balance = c.virtual_balance := rfl

@[simp] lemma setPE_weight (c : Connector) (e : Bool) :
    (c.setPE e).weight = c.weight := rfl

@[simp] lemma setPE_is_virtual (c : Connector) (e : Bool) :
    (c.setPE e).is_virtual_balance_enabled = c.is_virtual_balance_enabled := rfl

@[simp] lemma setPE_is_purchase_enabled (c : Connector) (e : Bool) :
    (c.setPE e).is_purchase_enabled = e := rfl

@[simp] lemma setPE_is_set (c : Connector) (e : Bool) :
    (c.setPE e).is_set = c.is_set := rfl

/-- A successful sale quote needed the converter active and the connector
present. -/
lemma get_sale_return_ok_facts {ext : Ext} {st : State} {tok : Nat}
    {amount : Int} {p : Int × Int}
    (h : get_sale_return ext st tok amount = .ok p) :
    st.active = true ∧ (st.connectors tok).is_set = true := by
  unfold get_sale_return at h
  split at h
  · exact absurd h (by simp)
  · split at h
    · exact absurd h (by simp)
    · refine ⟨by simp_all, by simp_all⟩

/-- A successful purchase quote needed the converter active, the
connector present, and purchases enabled on it. -/
lemma get_purchase_return_ok_facts {ext : Ext} {st : State} {tok : Nat}
    {amount : Int} {fc : Bool} {p : Int × Int}
    (h : get_purchase_return ext st tok amount fc = .ok p) :
    st.active = true ∧ (st.connectors tok).is_set = true ∧
      (st.connectors tok).is_purchase_enabled = true := by
  unfold get_purchase_return at h
  split at h
  · exact absurd h (by simp)
  · split at h
    · exact absurd h (by simp)
    · split at h
      · exact absurd h (by simp)
      · refine ⟨by simp_all, by simp_all, by simp_all⟩

/-- A successful cross quote needed the converter active, both connectors
present, and purchases enabled on the destination. -/
lemma get_cross_connector_return_ok_facts {ext : Ext} {st : State}
    {fromTok toTok : Nat} {amount : Int} {fc : Bool} {p : Int × Int}
    (h : get_cross_connector_return ext st fromTok toTok amount fc = .ok p) :
    st.active = true ∧ (st.connectors fromTok).is_set = true ∧
      (st.connectors toTok).is_set = true ∧
      (st.connectors toTok).is_purchase_enabled = true := by
  unfold get_cross_connector_return at h
  split at h
  · exact absurd h (by simp)
  · split at h
    · exact absurd h (by simp)
    · split at h
      · exact absurd h (by simp)
      · split at h
        · exact absurd h (by simp)
        · exact ⟨by simp_all, by simp_all, by simp_all, by simp_all⟩

/-- On a present connector `getConnectorBalance` returns the effective
balance. -/
lemma getConnectorBalance_ok_of_isSet {st : State} {tok : Nat}
    (h : (st.connectors tok).is_set = true) :
    getConnectorBalance st tok = .ok (effectiveBalance st tok) := by
  unfold getConnectorBalance
  rw [if_pos h]

end Lemmas

section ClaimC1

/-- Claim C1 (counterexample): with the installed ceiling
`maxConversionFee = 500000` and `conversionFee = 100000` (a legal fee
state), the source's `getFinalAmount(10, 1)` returns 9 — computed with
the class constant 1,000,000 — while the claimed formula
`rawAmount * (maxConversionFee - conversionFee)^magnitude //
maxConversionFee^magnitude` over the installed ceiling gives 8. -/
theorem C1_counterexample :
    0 ≤ stC1.conversion_fee ∧ stC1.conversion_fee ≤ stC1.max_conversion_fee ∧
    getFinalAmount stC1 10 1 = 9 ∧
    finalAmountSpec 10 1 stC1.conversion_fee stC1.max_conversion_fee = 8 := by
  refine ⟨by decide, by decide, by decide, by decide⟩

/-- Claim C1 (amended): for every `rawAmount ≥ 0`, magnitude in {1, 2}
and fee with `0 ≤ conversionFee ≤ 1_000_000`, `getFinalAmount` returns
exactly `rawAmount * (1_000_000 - conversionFee)^magnitude //
1_000_000^magnitude` with truncating integer division, where 1,000,000 is
the class constant `_MAX_CONVERSION_FEE` — not the `maxConversionFee`
fixed at installation. -/
theorem C1_getFinalAmount_uses_constant_ceiling (st : State) (raw : Int)
    (mag : Nat) (h0 : 0 ≤ raw) (h1 : 0 ≤ st.conversion_fee)
    (h2 : st.conversion_fee ≤ MAX_CONVERSION_FEE) (hm : mag = 1 ∨ mag = 2) :
    getFinalAmount st raw mag =
      Int.tdiv (raw * (MAX_CONVERSION_FEE - st.conversion_fee) ^ mag)
        (MAX_CONVERSION_FEE ^ mag) := by
  have hr : (0 : Int) ≤ (MAX_CONVERSION_FEE - st.conversion_fee) ^ mag :=
    pow_nonneg (by omega) _
  have hb : (0 : Int) ≤ MAX_CONVERSION_FEE ^ mag :=
    pow_nonneg (by norm_num [MAX_CONVERSION_FEE]) _
  unfold getFinalAmount
  exact Int.fdiv_eq_tdiv (mul_nonneg h0 hr) hb

/-- Witness for the amended C1 at `raw = 10`, magnitude 1, fee state of
`stC1`. -/
theorem C1_witness :
    getFinalAmount stC1 10 1 =
      Int.tdiv (10 * (MAX_CONVERSION_FEE - stC1.conversion_fee) ^ 1)
        (MAX_CONVERSION_FEE ^ 1) :=
  C1_getFinalAmount_uses_constant_ceiling stC1 10 1 (by decide) (by decide)
    (by decide) (Or.inl rfl)

end ClaimC1

section ClaimC7

/-- Claim C7 (counterexample): at `raw = 0` with the legal fee state of
`stC7` (fee 1 ppm), `getFinalAmount(0, 1) = 0 = raw`, so equality holds
while the fee is nonzero — refuting "equality holds if and only if
`fee == 0`". -/
theorem C7_counterexample :
    0 ≤ stC7.conversion_fee ∧ stC7.conversion_fee ≤ stC7.max_conversion_fee ∧
    getFinalAmount stC7 0 1 = 0 ∧ stC7.conversion_fee ≠ 0 := by
  refine ⟨by decide, by decide, by decide, by decide⟩

/-- Claim C7 (amended): for every `raw ≥ 0` and legal fee state,
`getFinalAmount(raw, 1) ≤ raw`, and equality holds if and only if the fee
is 0 **or `raw` is 0**. -/
theorem C7_final_amount_le_raw (st : State) (raw : Int) (h0 : 0 ≤ raw)
    (h1 : 0 ≤ st.conversion_fee)
    (h2 : st.conversion_fee ≤ st.max_conversion_fee)
    (h3 : st.max_conversion_fee ≤ MAX_CONVERSION_FEE) :
    getFinalAmount st raw 1 ≤ raw ∧
      (getFinalAmount st raw 1 = raw ↔ st.conversion_fee = 0 ∨ raw = 0) := by
  have hM : (0 : Int) < MAX_CONVERSION_FEE := by norm_num [MAX_CONVERSION_FEE]
  have hfM : st.conversion_fee ≤ MAX_CONVERSION_FEE := le_trans h2 h3
  have hnum : (0 : Int) ≤ raw * (MAX_CONVERSION_FEE - st.conversion_fee) :=
    mul_nonneg h0 (by omega)
  have hdef : getFinalAmount st raw 1 =
      raw * (MAX_CONVERSION_FEE - st.conversion_fee) / MAX_CONVERSION_FEE := by
    unfold getFinalAmount
    rw [pow_one, pow_one, Int.fdiv_eq_ediv _ (le_of_lt hM)]
  have hle : getFinalAmount st raw 1 ≤ raw := by
    rw [hdef]
    calc raw * (MAX_CONVERSION_FEE - st.conversion_fee) / MAX_CONVERSION_FEE
        ≤ raw * MAX_CONVERSION_FEE / MAX_CONVERSION_FEE :=
          Int.ediv_le_ediv hM (by nlinarith)
      _ = raw := Int.mul_ediv_cancel raw (ne_of_gt hM)
  refine ⟨hle, ?_, ?_⟩
  · intro heq
    by_contra hcon
    push_neg at hcon
    obtain ⟨hf, hraw⟩ := hcon
    have hfpos : 0 < st.conversion_fee := lt_of_le_of_ne h1 (Ne.symm hf)
    have hrawpos : 0 < raw := lt_of_le_of_ne h0 (Ne.symm hraw)
    have hlt : getFinalAmount st raw 1 < raw := by
      rw [hdef, Int.ediv_lt_iff_lt_mul hM]
      nlinarith
    omega
  · rintro (hf | hraw)
    · rw [hdef, hf, sub_zero, Int.mul_ediv_cancel raw (ne_of_gt hM)]
    · rw [hdef, hraw, zero_mul, Int.zero_ediv]

/-- Witness for the amended C7 at `raw = 7` in the fee state of `stC7`. -/
theorem C7_witness :
    getFinalAmount stC7 7 1 ≤ 7 ∧
      (getFinalAmount stC7 7 1 = 7 ↔ stC7.conversion_fee = 0 ∨ (7 : Int) = 0) :=
  C7_final_amount_le_raw stC7 7 (by decide) (by decide) (by decide) (by decide)

end ClaimC7

section ClaimC9

/-- Claim C9: `spec-modelled` — selling the entire outstanding supply
returns exactly the reserve balance, for every power routine, every
positive supply, balance and valid weight: the full-redemption case of
`calculate_sale_return` is the exact identity the spec requires, not a
runtime check. -/
theorem C9_full_redemption (pow_sale : Int → Int → Int → Int → Int)
    (supply balance weight : Int) (h1 : 0 < supply) (h2 : 0 ≤ balance)
    (h3 : 0 < weight) (h4 : weight ≤ MAX_WEIGHT) :
    calculate_sale_return pow_sale supply balance weight supply = balance := by
  unfold calculate_sale_return
  rw [if_neg (by omega), if_pos rfl]

/-- Witness for C9 at supply 50, balance 100, weight 500000 under the
concrete curve bundle `extW`. -/
theorem C9_witness :
    calculate_sale_return extW.pow_sale 50 100 500000 50 = 100 :=
  C9_full_redemption extW.pow_sale 50 100 500000 (by decide) (by decide)
    (by decide) (by decide)

end ClaimC9

section ClaimC10

/-- Claim C10: for an authorized caller, `disableConversions d` is a
no-op (no state change, no event) when the stored flag already equals
`!d`, and otherwise flips the flag to `!d` and emits exactly one
`ConversionsEnable` event carrying the new value. -/
theorem C10_disable_conversions_idempotent (st : State) (caller : Nat)
    (d : Bool) (hauth : caller = st.owner ∨ caller = st.manager) :
    (st.conversions_enabled = !d → disableConversions st caller d = .ok st 0) ∧
    (st.conversions_enabled = d →
      disableConversions st caller d =
        .ok (emit { st with conversions_enabled := !d }
              (.ConversionsEnable (!d))) 0) := by
  unfold disableConversions
  rw [if_neg (not_not_intro hauth)]
  constructor
  · intro h
    rw [if_neg (by simp [h])]
  · intro h
    rw [if_pos h]

/-- Witness for C10: in `stW` (conversions enabled) the manager's
`disableConversions true` flips the flag and emits the event, and
`disableConversions false` is a no-op. -/
theorem C10_witness :
    disableConversions stW 2 true =
      .ok (emit { stW with conversions_enabled := false }
            (.ConversionsEnable false)) 0 ∧
    disableConversions stW 2 false = .ok stW 0 := by
  have h := C10_disable_conversions_idempotent stW 2 true (Or.inr rfl)
  have h' := C10_disable_conversions_idempotent stW 2 false (Or.inr rfl)
  exact ⟨h.2 rfl, h'.1 rfl⟩

end ClaimC10

section ClaimC6

/-- Claim C6 (counterexample): in the concrete state `stW` (owner 1), a
`restoreRegistry` succeeds and clears `allow_registry_update`, yet an
immediately following `updateRegistry` **by the owner** also succeeds
(`updateRegistry` lets the owner through even when updates are
disabled, source line 598) — refuting "every subsequent updateRegistry
call by any caller (including the owner) fails". -/
theorem C6_counterexample :
    (restoreRegistry stW 1).isOk = true ∧
    ((restoreRegistry stW 1).state).allow_registry_update = false ∧
    stW.owner = 1 ∧
    (updateRegistry extW ((restoreRegistry stW 1).state) 1).isOk = true := by
  refine ⟨by decide, by decide, by decide, by decide⟩

/-- Claim C6 (amended): after `restoreRegistry` completes, registry
updates are disabled and every subsequent `updateRegistry` call by a
caller **other than the owner** fails, until an owner (or manager)
re-enables updates via `disableRegistryUpdate false`; the owner's own
`updateRegistry` calls bypass the gate. -/
theorem C6_restore_blocks_non_owner (st st' : State) (c0 : Nat)
    (h : restoreRegistry st c0 = .ok st' 0) :
    st'.allow_registry_update = false ∧
    (∀ ext caller, caller ≠ st'.owner →
      (updateRegistry ext st' caller).isOk = false) ∧
    (∀ c1, c1 = st'.owner ∨ c1 = st'.manager →
      disableRegistryUpdate st' c1 false =
        .ok { st' with allow_registry_update := true } 0) := by
  unfold restoreRegistry at h
  split at h
  · exact absurd h (by simp)
  · have hst : st' = { st with registry := st.prev_registry,
                                allow_registry_update := false } := by
      cases h
      rfl
    subst hst
    refine ⟨rfl, ?_, ?_⟩
    · intro ext caller hc
      unfold updateRegistry
      rw [if_pos]
      · rfl
      · simp only [not_or]
        exact ⟨by simp, hc⟩
    · intro c1 hc1
      unfold disableRegistryUpdate
      rw [if_neg (not_not_intro hc1)]
      rfl

/-- Witness for the amended C6: restoring in `stW` by the owner, then a
non-owner caller (address 3) cannot update the registry, and the owner
can re-enable updates. -/
theorem C6_witness :
    ((restoreRegistry stW 1).state).allow_registry_update = false ∧
    (updateRegistry extW ((restoreRegistry stW 1).state) 3).isOk = false := by
  have h := C6_restore_blocks_non_owner stW ((restoreRegistry stW 1).state) 1
    (by rfl)
  exact ⟨h.1, h.2.1 extW 3 (by decide)⟩

end ClaimC6

section ClaimC2

/-- Replacing a summand function pointwise on a list keeps the sum. -/
lemma sum_map_eq_of_agree {l : List Nat} {f g : Nat → Int}
    (h : ∀ a ∈ l, f a = g a) : (l.map f).sum = (l.map g).sum := by
  induction l with
  | nil => rfl
  | cons x xs ih =>
    rw [List.map_cons, List.sum_cons, List.map_cons, List.sum_cons,
      h x (List.mem_cons_self x xs), ih (fun a ha => h a (List.mem_cons_of_mem x ha))]

/-- Changing a summand function at one member of a duplicate-free list
shifts the sum by the difference at that member. -/
lemma sum_map_update {l : List Nat} {f g : Nat → Int} {tok : Nat}
    (hnd : l.Nodup) (hmem : tok ∈ l) (h : ∀ a, a ≠ tok → g a = f a) :
    (l.map g).sum = (l.map f).sum - f tok + g tok := by
  induction l with
  | nil => cases hmem
  | cons x xs ih =>
    rcases List.mem_cons.mp hmem with rfl | hx
    · have hxs : ∀ a ∈ xs, g a = f a := by
        intro a ha
        exact h a (fun e => (List.nodup_cons.mp hnd).1 (e ▸ ha))
      rw [List.map_cons, List.sum_cons, List.map_cons, List.sum_cons,
        sum_map_eq_of_agree fun a ha => (hxs a ha).symm]
      ring
    · have hx' : x ≠ tok := by
        rintro rfl
        exact (List.nodup_cons.mp hnd).1 hx
      rw [List.map_cons, List.sum_cons, List.map_cons, List.sum_cons,
        ih (List.nodup_cons.mp hnd).2 hx, h x hx']
      ring

/-- The connector table reached by a successful `addConnector` sums to
the old sum plus the new weight. -/
lemma sumWeights_addState (st : State) (t : Nat) (w : Int) (e : Bool)
    (htl : t ∉ st.connector_tokens) :
    sumWeights { setConn st t ⟨0, w, e, true, true⟩ with
                 connector_tokens := st.connector_tokens ++ [t],
                 total_connector_weight := st.total_connector_weight + w }
      = sumWeights st + w := by
  show ((st.connector_tokens ++ [t]).map fun a =>
      (if a = t then (⟨0, w, e, true, true⟩ : Connector)
        else st.connectors a).weight).sum
    = sumWeights st + w
  have hagree : ∀ a ∈ st.connector_tokens,
      ((if a = t then (⟨0, w, e, true, true⟩ : Connector)
        else st.connectors a)).weight = (st.connectors a).weight := by
    intro a ha
    rw [if_neg (fun hat : a = t => htl (hat ▸ ha))]
  rw [List.map_append, List.sum_append, List.map_singleton,
    List.sum_singleton, if_pos rfl, List.map_congr_left hagree]
  rfl

/-- The connector table reached by a successful `updateConnector` sums to
the old sum minus the old weight plus the new one. -/
lemma sumWeights_updState (st : State) (t : Nat) (w vb : Int) (e : Bool)
    (hnd : st.connector_tokens.Nodup) (hmem : t ∈ st.connector_tokens) :
    sumWeights (setConn
        { st with total_connector_weight :=
            st.total_connector_weight - (st.connectors t).weight + w } t
        ⟨vb, w, e, (st.connectors t).is_purchase_enabled,
          (st.connectors t).is_set⟩)
      = sumWeights st - (st.connectors t).weight + w := by
  show (st.connector_tokens.map fun a =>
      (if a = t then
          (⟨vb, w, e, (st.connectors t).is_purchase_enabled,
            (st.connectors t).is_set⟩ : Connector)
        else st.connectors a).weight).sum
    = sumWeights st - (st.connectors t).weight + w
  have hagree : ∀ a, a ≠ t →
      ((if a = t then
          (⟨vb, w, e, (st.connectors t).is_purchase_enabled,
            (st.connectors t).is_set⟩ : Connector)
        else st.connectors a)).weight = (st.connectors a).weight := by
    intro a hat
    rw [if_neg hat]
  rw [sum_map_update hnd hmem hagree, if_pos rfl]
  rfl

/-- `addConnector` preserves the registry invariant under the host's
transactional semantics. -/
lemma addConnector_inv {st : State} (h : Inv st) (c t : Nat) (w : Int)
    (e : Bool) : Inv ((addConnector st c t w e).commit st) := by
  obtain ⟨hnd, hiff, hsum, hle⟩ := h
  cases h' : addConnector st c t w e with
  | err st' m =>
    exact ⟨hnd, hiff, hsum, hle⟩
  | ok st' r =>
    unfold addConnector at h'
    split_ifs at h' with h1 h2 h3 h4 h5 h6 h7 h8
    have hst : st' = { setConn st t ⟨0, w, e, true, true⟩ with
                       connector_tokens := st.connector_tokens ++ [t],
                       total_connector_weight := st.total_connector_weight + w } :=
      (congrArg Res.state h').symm
    subst hst
    simp only [Res.commit]
    have htl : t ∉ st.connector_tokens := fun hm => h7 ((hiff t).mpr hm)
    refine ⟨?_, ?_, ?_, ?_⟩
    · exact hnd.append (List.nodup_singleton t)
        (by
          intro a ha hb
          rw [List.mem_singleton] at hb
          exact htl (hb ▸ ha))
    · intro a
      by_cases hat : a = t
      · subst hat
        simp [setConn]
      · simp [setConn, hat, List.mem_append, hiff a]
    · show st.total_connector_weight + w = sumWeights _
      rw [hsum]
      exact (sumWeights_addState st t w e htl).symm
    · exact h8

/-- `updateConnector` preserves the registry invariant under the host's
transactional semantics. -/
lemma updateConnector_inv {st : State} (h : Inv st) (c t : Nat) (w : Int)
    (e : Bool) (vb : Int) :
    Inv ((updateConnector st c t w e vb).commit st) := by
  obtain ⟨hnd, hiff, hsum, hle⟩ := h
  cases h' : updateConnector st c t w e vb with
  | err st' m =>
    exact ⟨hnd, hiff, hsum, hle⟩
  | ok st' r =>
    unfold updateConnector at h'
    split_ifs at h' with h1 h2 h3 h4
    have hst : st' = setConn
        { st with total_connector_weight :=
            st.total_connector_weight - (st.connectors t).weight + w } t
        ⟨vb, w, e, (st.connectors t).is_purchase_enabled,
          (st.connectors t).is_set⟩ :=
      (congrArg Res.state h').symm
    subst hst
    simp only [Res.commit]
    have hset : (st.connectors t).is_set = true := by
      cases hb : (st.connectors t).is_set
      · exact absurd hb h2
      · rfl
    have hmem : t ∈ st.connector_tokens := (hiff t).mp hset
    refine ⟨hnd, ?_, ?_, h4⟩
    · intro a
      by_cases hat : a = t
      · subst hat
        simp [setConn, hset]
        exact hmem
      · simpa [setConn, hat] using hiff a
    · show st.total_connector_weight - (st.connectors t).weight + w
        = sumWeights _
      rw [hsum]
      exact (sumWeights_updState st t w vb e hnd hmem).symm

/-- Every admin call preserves the registry invariant. -/
lemma runOp_inv {st : State} (h : Inv st) (op : AdminOp) : Inv (runOp st op) := by
  cases op with
  | add c t w e => exact addConnector_inv h c t w e
  | update c t w e v => exact updateConnector_inv h c t w e v

/-- Every sequence of admin calls preserves the registry invariant. -/
lemma runOps_inv {st : State} (ops : List AdminOp) (h : Inv st) :
    Inv (runOps st ops) := by
  induction ops generalizing st with
  | nil => exact h
  | cons op ops ih => exact ih (runOp_inv h op)

/-- The freshly installed converter satisfies the registry invariant. -/
lemma Inv_installState (tokenA registryA ownerA managerA selfA : Nat)
    (maxFee : Int) :
    Inv (installState tokenA registryA ownerA managerA selfA maxFee) := by
  refine ⟨List.nodup_nil, ?_, rfl, by norm_num [installState, MAX_WEIGHT]⟩
  intro a
  simp [installState, Connector.default]

/-- An `addConnector` whose weight would overflow the ceiling reverts,
and its raise-time state is the unmodified input state. -/
lemma addConnector_overflow {st : State} {w : Int} (c t : Nat) (e : Bool)
    (hover : MAX_WEIGHT < st.total_connector_weight + w) :
    ∃ m, addConnector st c t w e = .err st m := by
  unfold addConnector
  split_ifs with h1 h2 h3 h4 h5 h6 h7 h8
  any_goals exact ⟨_, rfl⟩
  exact absurd h8 (not_le.mpr hover)

/-- Claim C2: starting from any state satisfying the registry invariant
(in particular the installed state), after any sequence of
`addConnector`/`updateConnector` calls — each committing on success and
rolled back by the host on failure — the stored `totalWeight` equals the
sum of the weights of the present connectors (those with `is_set`,
which are exactly the listed ones) and never exceeds 1,000,000; and in
the reached state an `addConnector` whose weight would push the sum
above 1,000,000 reverts with its raise-time state equal to the input
state (no mutation precedes the checks). -/
theorem C2_total_weight_invariant (st0 : State) (ops : List AdminOp)
    (h : Inv st0) :
    (runOps st0 ops).total_connector_weight = sumWeights (runOps st0 ops) ∧
    (∀ a, ((runOps st0 ops).connectors a).is_set = true ↔
      a ∈ (runOps st0 ops).connector_tokens) ∧
    (runOps st0 ops).total_connector_weight ≤ MAX_WEIGHT ∧
    (∀ c t w e, MAX_WEIGHT < (runOps st0 ops).total_connector_weight + w →
      ∃ m, addConnector (runOps st0 ops) c t w e = .err (runOps st0 ops) m) := by
  obtain ⟨hnd, hiff, hsum, hle⟩ := runOps_inv ops h
  exact ⟨hsum, hiff, hle, fun c t w e hover => addConnector_overflow c t e hover⟩

/-- Witness for C2: from a fresh install, adding connector 3 at weight
400,000 then updating it to 900,000; the invariant holds and a further
add of weight 200,000 reverts in place. -/
theorem C2_witness :
    stC2.total_connector_weight = sumWeights stC2 ∧
    stC2.total_connector_weight ≤ MAX_WEIGHT := by
  have h := C2_total_weight_invariant (installState 100 5 1 2 99 30000)
    [AdminOp.add 1 3 400000 true, AdminOp.update 1 3 900000 true 77]
    (Inv_installState 100 5 1 2 99 30000)
  exact ⟨h.1, h.2.2.1⟩

end ClaimC2

section ClaimC3

/-- The sell tail returns the quoted amount on success. -/
lemma sellApply_ok {st st1 st' : State} {trader tok : Nat}
    {amount ra fee r : Int}
    (h : sellApply st st1 trader tok amount ra fee = .ok st' r) : r = ra := by
  simp only [sellApply] at h
  split at h
  · exact Res.noConfusion h
  · cases h
    rfl

/-- A successful guarded sell returned the quoted amount and passed the
depletion condition on the pre-trade effective balance. -/
lemma sellGuarded_ok {st st' : State} {trader tok : Nat} {amount ra fee r : Int}
    (h : sellGuarded st trader tok amount ra fee = .ok st' r) :
    r = ra ∧ (ra < effectiveBalance st tok ∨
      (ra = effectiveBalance st tok ∧ amount = st.flexible_supply)) := by
  unfold sellGuarded at h
  split at h
  · exact Res.noConfusion h
  · rename_i bal hbal
    have hbal2 : bal = effectiveBalance st tok := by
      unfold getConnectorBalance at hbal
      split at hbal
      · exact (Except.ok.inj hbal).symm
      · exact absurd hbal (by simp)
    split at h
    · rename_i hcond
      split at h
      · exact Res.noConfusion h
      · exact ⟨sellApply_ok h, hbal2 ▸ hcond⟩
    · exact Res.noConfusion h

/-- Claim C3: a SELL succeeds only if the fee-adjusted return is strictly
below the connector's effective balance, or equals it while the sold
amount equals the entire current flexible-token supply; and when the
quote and slippage checks pass but this condition fails, the request
reverts with the depletion message, its raise-time state being the
untouched input state. -/
theorem C3_sell_depletion_guard (ext : Ext) (st : State) (trader tok : Nat)
    (amount min_return : Int) :
    (∀ st' r, _sell ext st trader tok amount min_return = .ok st' r →
      r < effectiveBalance st tok ∨
        (r = effectiveBalance st tok ∧ amount = st.flexible_supply)) ∧
    (∀ ra fee, get_sale_return ext st tok amount = .ok (ra, fee) →
      min_return ≤ ra →
      ¬(ra < effectiveBalance st tok ∨
        (ra = effectiveBalance st tok ∧ amount = st.flexible_supply)) →
      _sell ext st trader tok amount min_return =
        .err st "returning amount does not meet connector balance condition") := by
  constructor
  · intro st' r h
    unfold _sell at h
    split at h
    · exact Res.noConfusion h
    · split at h
      · exact Res.noConfusion h
      · obtain ⟨hr, hcond⟩ := sellGuarded_ok h
        rw [hr]
        exact hcond
  · intro ra fee hq hmin hcond
    have hset := (get_sale_return_ok_facts hq).2
    unfold _sell
    simp only [hq]
    rw [if_neg (not_lt.mpr hmin)]
    unfold sellGuarded
    simp only [getConnectorBalance_ok_of_isSet hset]
    rw [if_neg hcond]

/-- Witness for C3: in `stW` a full-redemption SELL of the whole supply
(50) against connector 3 succeeds with return 100 equal to the virtual
balance — the equality branch of the depletion condition. -/
theorem C3_witness :
    (100 : Int) < effectiveBalance stW 3 ∨
      ((100 : Int) = effectiveBalance stW 3 ∧ (50 : Int) = stW.flexible_supply) :=
  (C3_sell_depletion_guard extW stW 5 3 50 1).1 ((_sell extW stW 5 3 50 1).state)
    100 rfl

end ClaimC3

section ClaimC5

/-- The source-side adjustment leaves every other connector record
untouched. -/
lemma crossSourceAdjusted_connectors_other {st : State} {fromTok a : Nat}
    {amount : Int} (h : a ≠ fromTok) :
    (crossSourceAdjusted st fromTok amount).connectors a = st.connectors a := by
  unfold crossSourceAdjusted
  split
  · simp [setConn, h]
  · rfl

/-- The source-side adjustment leaves real balances untouched. -/
lemma crossSourceAdjusted_real {st : State} {fromTok : Nat} {amount : Int} :
    (crossSourceAdjusted st fromTok amount).real_balances = st.real_balances := by
  unfold crossSourceAdjusted
  split
  · rfl
  · rfl

/-- The cross tail returns the quoted amount on success. -/
lemma crossApply_ok {st2 st' : State} {trader fromTok toTok : Nat}
    {amount ra fee r : Int}
    (h : crossApply st2 trader fromTok toTok amount ra fee = .ok st' r) :
    r = ra := by
  simp only [crossApply] at h
  split at h
  · exact Res.noConfusion h
  · split at h
    · exact Res.noConfusion h
    · cases h
      rfl

/-- A successful cross check returned the quoted amount, which is
strictly below the (post-adjustment) destination effective balance. -/
lemma crossChecked_ok {st2 st' : State} {trader fromTok toTok : Nat}
    {amount ra fee r : Int}
    (h : crossChecked st2 trader fromTok toTok amount ra fee = .ok st' r) :
    r = ra ∧ ra < effectiveBalance st2 toTok := by
  unfold crossChecked at h
  split at h
  · exact Res.noConfusion h
  · rename_i tobal hgb
    have hbal2 : tobal = effectiveBalance st2 toTok := by
      unfold getConnectorBalance at hgb
      split at hgb
      · exact (Except.ok.inj hgb).symm
      · exact absurd hgb (by simp)
    split at h
    · rename_i hlt
      exact ⟨crossApply_ok h, hbal2 ▸ hlt⟩
    · exact Res.noConfusion h

/-- A successful cross mutation step keeps the quoted amount strictly
below the destination's **pre-adjustment** effective balance, for a
positive quoted amount and distinct connectors. -/
lemma crossPerform_ok {st st' : State} {trader fromTok toTok : Nat}
    {amount ra fee r : Int} (hne : toTok ≠ fromTok) (hra : 0 < ra)
    (h : crossPerform st trader fromTok toTok amount ra fee = .ok st' r) :
    r = ra ∧ ra < effectiveBalance st toTok := by
  unfold crossPerform at h
  split at h
  · exact Res.noConfusion h
  · rename_i st2 heq
    rw [crossSourceAdjusted_connectors_other hne] at heq
    obtain ⟨hr, hlt⟩ := crossChecked_ok h
    refine ⟨hr, ?_⟩
    by_cases hv : (st.connectors toTok).is_virtual_balance_enabled = true
    · rw [if_pos hv] at heq
      split at heq
      · exact absurd heq (by simp)
      · rename_i v hsub
        unfold safe_sub at hsub
        split at hsub
        · rename_i hle
          have hv2 : (st.connectors toTok).virtual_balance - ra = v :=
            Except.ok.inj hsub
          have hst2 : setConn (crossSourceAdjusted st fromTok amount) toTok
              ((st.connectors toTok).setVB v) = st2 := Except.ok.inj heq
          have heb : effectiveBalance st2 toTok = v := by
            rw [← hst2]
            unfold effectiveBalance
            simp [setConn, hv]
          have heb0 : effectiveBalance st toTok =
              (st.connectors toTok).virtual_balance := by
            unfold effectiveBalance
            rw [if_pos hv]
          rw [heb] at hlt
          rw [heb0]
          omega
        · exact absurd hsub (by simp)
    · rw [if_neg hv] at heq
      have hst2 : crossSourceAdjusted st fromTok amount = st2 :=
        Except.ok.inj heq
      have heb : effectiveBalance st2 toTok = st.real_balances toTok := by
        rw [← hst2]
        unfold effectiveBalance
        rw [crossSourceAdjusted_connectors_other hne, if_neg hv,
          crossSourceAdjusted_real]
      have heb0 : effectiveBalance st toTok = st.real_balances toTok := by
        unfold effectiveBalance
        rw [if_neg hv]
      rw [heb] at hlt
      rw [heb0]
      exact hlt

/-- Claim C5: a CROSS conversion succeeds only if the fee-adjusted return
is strictly less than the destination connector's pre-adjustment
effective balance; equality is never accepted.  Hypotheses `0 < min_return`
and `toTok ≠ fromTok` hold on every request reaching this path, enforced
by `_convert` (source lines 270-271). -/
theorem C5_cross_strict_inequality (ext : Ext) (st : State)
    (trader fromTok toTok : Nat) (amount min_return : Int)
    (hmin : 0 < min_return) (hne : toTok ≠ fromTok) :
    ∀ st' r, _convert_cross_connector ext st trader fromTok toTok amount
        min_return = .ok st' r →
      r < effectiveBalance st toTok := by
  intro st' r h
  unfold _convert_cross_connector at h
  split at h
  · exact Res.noConfusion h
  · rename_i ra fee hq
    split at h
    · exact Res.noConfusion h
    · rename_i hsl
      have hra : 0 < ra := lt_of_lt_of_le hmin (not_lt.mp hsl)
      obtain ⟨hr, hlt⟩ := crossPerform_ok hne hra h
      rw [hr]
      exact hlt

/-- Witness for C5: in `stW` a CROSS conversion of 5 from connector 3 to
connector 4 under the curve bundle `extW2` succeeds with return 10, which
is strictly below connector 4's pre-trade virtual balance 50. -/
theorem C5_witness : (10 : Int) < effectiveBalance stW 4 :=
  C5_cross_strict_inequality extW2 stW 5 3 4 5 1 (by decide) (by decide)
    ((_convert_cross_connector extW2 stW 5 3 4 5 1).state) 10 rfl

end ClaimC5

section ClaimC4

/-- The buy tail cannot revert when the connector is present. -/
lemma buyPerform_no_err {st : State} {trader tok : Nat} {amount ra fee : Int}
    (hset : (st.connectors tok).is_set = true) :
    ∀ s m, buyPerform st trader tok amount ra fee ≠ .err s m := by
  intro s m h
  simp only [buyPerform] at h
  split at h
  · rename_i m0 hgb
    unfold getConnectorBalance at hgb
    split at hgb
    · exact absurd hgb (by simp)
    · rename_i hnotset
      apply hnotset
      simpa [emit, buySourceAdjusted_is_set] using hset
  · exact Res.noConfusion h

/-- The sell tail cannot revert when the connector is present in the
state it starts from. -/
lemma sellApply_no_err {st st1 : State} {trader tok : Nat}
    {amount ra fee : Int} (hset1 : (st1.connectors tok).is_set = true) :
    ∀ s m, sellApply st st1 trader tok amount ra fee ≠ .err s m := by
  intro s m h
  simp only [sellApply] at h
  split at h
  · rename_i m0 hgb
    unfold getConnectorBalance at hgb
    split at hgb
    · exact absurd hgb (by simp)
    · rename_i hnotset
      exact hnotset (by simpa [emit] using hset1)
  · exact Res.noConfusion h

/-- Every revert of the guarded sell carries the untouched input state. -/
lemma sellGuarded_err {st : State} {trader tok : Nat} {amount ra fee : Int}
    (hset : (st.connectors tok).is_set = true) :
    ∀ s m, sellGuarded st trader tok amount ra fee = .err s m → s = st := by
  intro s m h
  unfold sellGuarded at h
  split at h
  · cases h
    rfl
  · rename_i bal hbal
    split at h
    · rename_i hcond
      split at h
      · cases h
        rfl
      · rename_i st1 hst1
        exfalso
        have hset1 : (st1.connectors tok).is_set = true := by
          split at hst1
          · split at hst1
            · exact absurd hst1 (by simp)
            · rename_i v hsub
              rw [← Except.ok.inj hst1]
              simpa [setConn] using hset
          · rw [← Except.ok.inj hst1]
            exact hset
        exact sellApply_no_err hset1 s m h
    · cases h
      rfl

/-- Claim C4 (counterexample): on the CROSS path validation does not all
precede mutation.  In `stW` under `extW` a cross request from connector 3
to connector 4 fails its depletion check only after both virtual
balances were already mutated: the raise-time state carries source
virtual balance 105 and destination 10, while the pre-request state had
100 and 50.  (The host's transactional revert is what discards these
writes.) -/
theorem C4_counterexample :
    (_convert_cross_connector extW stW 5 3 4 5 1).isOk = false ∧
    Connector.virtual_balance
      (((_convert_cross_connector extW stW 5 3 4 5 1).state).connectors 3) = 105 ∧
    Connector.virtual_balance
      (((_convert_cross_connector extW stW 5 3 4 5 1).state).connectors 4) = 10 ∧
    (stW.connectors 3).virtual_balance = 100 ∧
    (stW.connectors 4).virtual_balance = 50 := by
  refine ⟨by decide, by decide, by decide, by decide, by decide⟩

/-- Claim C4 (amended): on the BUY and SELL paths every validation check
is evaluated before any state mutation, so any revert is raised in a
state identical to the pre-request state; on the CROSS path the
depletion check runs only after the virtual-balance mutations (see the
counterexample), and atomicity of a failed cross request is provided by
the host's transactional rollback rather than by check ordering. -/
theorem C4_buy_sell_validate_before_mutate (ext : Ext) (st : State)
    (trader tok : Nat) (amount min_return : Int) :
    (∀ s m, _buy ext st trader tok amount min_return = .err s m → s = st) ∧
    (∀ s m, _sell ext st trader tok amount min_return = .err s m → s = st) := by
  constructor
  · intro s m h
    unfold _buy at h
    split at h
    · cases h
      rfl
    · rename_i ra fee hq
      split at h
      · cases h
        rfl
      · exact absurd h (buyPerform_no_err (get_purchase_return_ok_facts hq).2.1 s m)
  · intro s m h
    unfold _sell at h
    split at h
    · cases h
      rfl
    · rename_i ra fee hq
      split at h
      · cases h
        rfl
      · exact sellGuarded_err (get_sale_return_ok_facts hq).2 s m h

/-- Witness for the amended C4: a BUY and a SELL in `stW` that fail their
slippage checks raise the revert in exactly the pre-request state. -/
theorem C4_witness : stW = stW ∧ stW = stW :=
  ⟨(C4_buy_sell_validate_before_mutate extW stW 5 3 5 11).1 stW
      "returning amount less than minimum requested amount" (by rfl),
    (C4_buy_sell_validate_before_mutate extW stW 5 3 50 200).2 stW
      "returning amount less than minimum requested amount" (by rfl)⟩

end ClaimC4

section ClaimC8

/-- Reads of the connector table after toggling one purchase flag. -/
lemma setPE_connectors (st : State) (tok a : Nat) (e : Bool) :
    (setPurchaseEnabled st tok e).connectors a =
      if a = tok then (st.connectors tok).setPE e else st.connectors a := rfl

/-- Projections unchanged by toggling a purchase flag. -/
lemma setPurchaseEnabled_active (st : State) (tok : Nat) (e : Bool) :
    (setPurchaseEnabled st tok e).active = st.active := rfl

lemma setPurchaseEnabled_flexible_supply (st : State) (tok : Nat) (e : Bool) :
    (setPurchaseEnabled st tok e).flexible_supply = st.flexible_supply := rfl

lemma setPurchaseEnabled_real_balances (st : State) (tok : Nat) (e : Bool) :
    (setPurchaseEnabled st tok e).real_balances = st.real_balances := rfl

/-- Toggling a purchase flag never changes an effective balance. -/
lemma effectiveBalance_setPE (st : State) (tok a : Nat) (e : Bool) :
    effectiveBalance (setPurchaseEnabled st tok e) a = effectiveBalance st a := by
  unfold effectiveBalance
  rw [setPurchaseEnabled_real_balances]
  by_cases hat : a = tok
  · subst hat
    simp [setPE_connectors]
  · simp [setPE_connectors, hat]

/-- Toggling a purchase flag never changes a connector-balance query. -/
lemma getConnectorBalance_setPE (st : State) (tok a : Nat) (e : Bool) :
    getConnectorBalance (setPurchaseEnabled st tok e) a =
      getConnectorBalance st a := by
  unfold getConnectorBalance
  rw [effectiveBalance_setPE]
  by_cases hat : a = tok
  · subst hat
    simp [setPE_connectors]
  · simp [setPE_connectors, hat]

/-- Toggling a purchase flag never changes the fee computation. -/
lemma getFinalAmount_setPE (st : State) (tok : Nat) (e : Bool) (x : Int)
    (k : Nat) : getFinalAmount (setPurchaseEnabled st tok e) x k =
      getFinalAmount st x k := rfl

/-- Toggling a purchase flag never changes a sale quote: `get_sale_return`
never reads `is_purchase_enabled`. -/
lemma get_sale_return_setPE (ext : Ext) (st : State) (tok a : Nat) (e : Bool)
    (amount : Int) :
    get_sale_return ext (setPurchaseEnabled st tok e) a amount =
      get_sale_return ext st a amount := by
  unfold get_sale_return
  simp only [effectiveBalance_setPE, getFinalAmount_setPE,
    setPurchaseEnabled_active, setPurchaseEnabled_flexible_supply,
    setPE_connectors]
  by_cases hat : a = tok
  · subst hat
    simp
  · simp [hat]

/-- Toggling the source connector's purchase flag never changes a cross
quote: only the destination's flag is read. -/
lemma get_cross_connector_return_setPE (ext : Ext) (st : State)
    (tok toTok : Nat) (e : Bool) (amount : Int) (fc : Bool)
    (hat : toTok ≠ tok) :
    get_cross_connector_return ext (setPurchaseEnabled st tok e) tok toTok
        amount fc =
      get_cross_connector_return ext st tok toTok amount fc := by
  unfold get_cross_connector_return
  simp only [effectiveBalance_setPE, getFinalAmount_setPE,
    setPurchaseEnabled_active, setPurchaseEnabled_flexible_supply,
    setPE_connectors]
  simp [hat]

/-- A connector-balance query is determined by the presence flag and the
effective balance. -/
lemma getConnectorBalance_congr {s1 s2 : State} {a : Nat}
    (h1 : (s1.connectors a).is_set = (s2.connectors a).is_set)
    (h2 : effectiveBalance s1 a = effectiveBalance s2 a) :
    getConnectorBalance s1 a = getConnectorBalance s2 a := by
  unfold getConnectorBalance
  rw [h1, h2]

/-- The sell tail's outcome is determined by the presence flag of the
connector in its starting state. -/
lemma sellApply_outcome_congr {stA stB s1 s2 : State} {trader tok : Nat}
    {amount ra fee : Int}
    (h : (s1.connectors tok).is_set = (s2.connectors tok).is_set) :
    Res.outcome (sellApply stA s1 trader tok amount ra fee) =
      Res.outcome (sellApply stB s2 trader tok amount ra fee) := by
  simp only [sellApply, getConnectorBalance, emit]
  rw [h]
  by_cases hs : (s2.connectors tok).is_set = true
  · simp [hs, Res.outcome]
  · simp [hs, Res.outcome]

/-- The cross tail's outcome is determined by the presence flags of the
two connectors in its starting state. -/
lemma crossApply_outcome_congr {s1 s2 : State} {trader fromTok toTok : Nat}
    {amount ra fee : Int}
    (h1 : (s1.connectors fromTok).is_set = (s2.connectors fromTok).is_set)
    (h2 : (s1.connectors toTok).is_set = (s2.connectors toTok).is_set) :
    Res.outcome (crossApply s1 trader fromTok toTok amount ra fee) =
      Res.outcome (crossApply s2 trader fromTok toTok amount ra fee) := by
  simp only [crossApply, getConnectorBalance, emit]
  rw [h1, h2]
  by_cases hf : (s2.connectors fromTok).is_set = true
  · by_cases ht : (s2.connectors toTok).is_set = true
    · simp [hf, ht, Res.outcome]
    · simp [hf, ht, Res.outcome]
  · simp [hf, Res.outcome]

/-- The cross check's outcome is determined by the destination's presence
flag and effective balance and the source's presence flag. -/
lemma crossChecked_outcome_congr {s1 s2 : State} {trader fromTok toTok : Nat}
    {amount ra fee : Int}
    (h1 : (s1.connectors toTok).is_set = (s2.connectors toTok).is_set)
    (h2 : effectiveBalance s1 toTok = effectiveBalance s2 toTok)
    (h3 : (s1.connectors fromTok).is_set = (s2.connectors fromTok).is_set) :
    Res.outcome (crossChecked s1 trader fromTok toTok amount ra fee) =
      Res.outcome (crossChecked s2 trader fromTok toTok amount ra fee) := by
  unfold crossChecked
  rw [getConnectorBalance_congr h1 h2]
  cases hgb : getConnectorBalance s2 toTok with
  | error m => rfl
  | ok bal =>
    simp only []
    by_cases hlt : ra < bal
    · rw [if_pos hlt, if_pos hlt]
      exact crossApply_outcome_congr h3 h1
    · rw [if_neg hlt, if_neg hlt]
      rfl

/-- The guarded sell's outcome is unchanged by toggling the connector's
purchase flag. -/
lemma sellGuarded_outcome_setPE (st : State) (trader tok : Nat)
    (amount ra fee : Int) (e : Bool) :
    Res.outcome (sellGuarded (setPurchaseEnabled st tok e) trader tok amount
        ra fee) =
      Res.outcome (sellGuarded st trader tok amount ra fee) := by
  unfold sellGuarded
  rw [getConnectorBalance_setPE]
  cases hgb : getConnectorBalance st tok with
  | error m => rfl
  | ok bal =>
    simp only [setPurchaseEnabled_flexible_supply]
    by_cases hcond : ra < bal ∨ (ra = bal ∧ amount = st.flexible_supply)
    · rw [if_pos hcond, if_pos hcond]
      have hvb : Connector.is_virtual_balance_enabled
          ((setPurchaseEnabled st tok e).connectors tok) =
            (st.connectors tok).is_virtual_balance_enabled := by
        simp [setPE_connectors]
      rw [hvb]
      have hvbal : Connector.virtual_balance
          ((setPurchaseEnabled st tok e).connectors tok) =
            (st.connectors tok).virtual_balance := by
        simp [setPE_connectors]
      rw [hvbal]
      by_cases hv : (st.connectors tok).is_virtual_balance_enabled = true
      · rw [if_pos hv, if_pos hv]
        cases hss : safe_sub (st.connectors tok).virtual_balance ra with
        | error m => rfl
        | ok v =>
          simp only []
          refine sellApply_outcome_congr ?_
          simp [setPE_connectors, setConn]
      · rw [if_neg hv, if_neg hv]
        refine sellApply_outcome_congr ?_
        simp [setPE_connectors]
    · rw [if_neg hcond, if_neg hcond]
      rfl

/-- The whole SELL path's outcome is unchanged by toggling the sold
connector's purchase flag: selling is never gated on it. -/
lemma sell_outcome_setPE (ext : Ext) (st : State) (trader tok : Nat)
    (amount min_return : Int) (e : Bool) :
    Res.outcome (_sell ext (setPurchaseEnabled st tok e) trader tok amount
        min_return) =
      Res.outcome (_sell ext st trader tok amount min_return) := by
  unfold _sell
  rw [get_sale_return_setPE]
  cases hq : get_sale_return ext st tok amount with
  | error m => rfl
  | ok p =>
    obtain ⟨ra, fee⟩ := p
    simp only []
    by_cases hsl : ra < min_return
    · rw [if_pos hsl, if_pos hsl]
      rfl
    · rw [if_neg hsl, if_neg hsl]
      exact sellGuarded_outcome_setPE st trader tok amount ra fee e

/-- The presence flags after the cross source adjustment are those of the
underlying state. -/
lemma crossSourceAdjusted_is_set (st : State) (fromTok a : Nat)
    (amount : Int) :
    ((crossSourceAdjusted st fromTok amount).connectors a).is_set =
      (st.connectors a).is_set := by
  unfold crossSourceAdjusted
  split
  · by_cases hat : a = fromTok
    · subst hat
      simp [setConn]
    · simp [setConn, hat]
  · rfl

/-- The cross mutation step's outcome is unchanged by toggling the source
connector's purchase flag. -/
lemma crossPerform_outcome_setPE (st : State) (trader tok toTok : Nat)
    (amount ra fee : Int) (e : Bool) (hat : toTok ≠ tok) :
    Res.outcome (crossPerform (setPurchaseEnabled st tok e) trader tok toTok
        amount ra fee) =
      Res.outcome (crossPerform st trader tok toTok amount ra fee) := by
  unfold crossPerform
  rw [crossSourceAdjusted_connectors_other hat,
    crossSourceAdjusted_connectors_other hat]
  have hc : (setPurchaseEnabled st tok e).connectors toTok =
      st.connectors toTok := by
    simp [setPE_connectors, hat]
  rw [hc]
  by_cases hv : (st.connectors toTok).is_virtual_balance_enabled = true
  · rw [if_pos hv, if_pos hv]
    cases hss : safe_sub (st.connectors toTok).virtual_balance ra with
    | error m => rfl
    | ok v =>
      simp only []
      refine crossChecked_outcome_congr ?_ ?_ ?_
      · simp [setConn]
      · unfold effectiveBalance
        simp only [setConn_connectors, if_pos rfl]
        rw [setConn_real_balances, setConn_real_balances,
          crossSourceAdjusted_real, crossSourceAdjusted_real]
        rfl
      · by_cases htf : tok = toTok
        · exact absurd htf.symm hat
        · simp only [setConn_connectors, if_neg htf]
          rw [crossSourceAdjusted_is_set, crossSourceAdjusted_is_set]
          simp [setPE_connectors]
  · rw [if_neg hv, if_neg hv]
    refine crossChecked_outcome_congr ?_ ?_ ?_
    · rw [crossSourceAdjusted_is_set, crossSourceAdjusted_is_set]
      simp [setPE_connectors, hat]
    · unfold effectiveBalance
      rw [crossSourceAdjusted_connectors_other hat,
        crossSourceAdjusted_connectors_other hat, hc,
        crossSourceAdjusted_real, crossSourceAdjusted_real]
      rfl
    · rw [crossSourceAdjusted_is_set, crossSourceAdjusted_is_set]
      simp [setPE_connectors]

/-- The whole CROSS-out path's outcome is unchanged by toggling the
source connector's purchase flag. -/
lemma cross_outcome_setPE (ext : Ext) (st : State) (trader tok toTok : Nat)
    (amount min_return : Int) (e : Bool) (hat : toTok ≠ tok) :
    Res.outcome (_convert_cross_connector ext (setPurchaseEnabled st tok e)
        trader tok toTok amount min_return) =
      Res.outcome (_convert_cross_connector ext st trader tok toTok amount
        min_return) := by
  unfold _convert_cross_connector
  rw [get_cross_connector_return_setPE ext st tok toTok e amount true hat]
  cases hq : get_cross_connector_return ext st tok toTok amount true with
  | error m => rfl
  | ok p =>
    obtain ⟨ra, fee⟩ := p
    simp only []
    by_cases hsl : ra < min_return
    · rw [if_pos hsl, if_pos hsl]
      rfl
    · rw [if_neg hsl, if_neg hsl]
      exact crossPerform_outcome_setPE st trader tok toTok amount ra fee e hat

/-- A disabled purchase flag makes every purchase quote revert. -/
lemma get_purchase_return_err_of_disabled {ext : Ext} {st : State} {tok : Nat}
    {amount : Int} {fc : Bool}
    (hdis : (st.connectors tok).is_purchase_enabled = false) :
    ∃ m, get_purchase_return ext st tok amount fc = .error m := by
  unfold get_purchase_return
  split_ifs with h1 h2 h3 h4 h5 <;>
    first
      | exact ⟨_, rfl⟩
      | exact absurd hdis h3

/-- A disabled purchase flag on the destination makes every cross quote
revert. -/
lemma get_cross_return_err_of_disabled {ext : Ext} {st : State}
    {fromTok toTok : Nat} {amount : Int} {fc : Bool}
    (hdis : (st.connectors toTok).is_purchase_enabled = false) :
    ∃ m, get_cross_connector_return ext st fromTok toTok amount fc =
      .error m := by
  unfold get_cross_connector_return
  split_ifs with h1 h2 h3 h4 h5 h6 <;>
    first
      | exact ⟨_, rfl⟩
      | exact absurd hdis h4

/-- Claim C8: once purchases are disabled on a connector, every BUY from
it and every CROSS conversion into it fails, while the outcome (success
with the same return, or failure with the same message) of a SELL into it
and of a CROSS conversion out of it is identical for any two settings of
the flag — the flag never affects sellability.  `setPurchaseEnabled st
tok e` is the state `disableConnectorPurchases(tok, not e)` leaves
behind. -/
theorem C8_purchase_disable_scope (ext : Ext) (st : State)
    (trader fromTok toTok tok : Nat) (amount min_return : Int)
    (hdis : (st.connectors tok).is_purchase_enabled = false)
    (hat : toTok ≠ tok) :
    (_buy ext st trader tok amount min_return).isOk = false ∧
    Res.isOk
      (_convert_cross_connector ext st trader fromTok tok amount min_return) =
        false ∧
    (∀ e1 e2, Res.outcome (_sell ext (setPurchaseEnabled st tok e1) trader tok
        amount min_return) =
      Res.outcome (_sell ext (setPurchaseEnabled st tok e2) trader tok amount
        min_return)) ∧
    (∀ e1 e2, Res.outcome (_convert_cross_connector ext
        (setPurchaseEnabled st tok e1) trader tok toTok amount min_return) =
      Res.outcome (_convert_cross_connector ext (setPurchaseEnabled st tok e2)
        trader tok toTok amount min_return)) := by
  refine ⟨?_, ?_, ?_, ?_⟩
  · obtain ⟨m, hm⟩ := @get_purchase_return_err_of_disabled ext st tok amount
      true hdis
    unfold _buy
    rw [hm]
    rfl
  · obtain ⟨m, hm⟩ := @get_cross_return_err_of_disabled ext st fromTok tok
      amount true hdis
    unfold _convert_cross_connector
    rw [hm]
    rfl
  · intro e1 e2
    rw [sell_outcome_setPE, sell_outcome_setPE]
  · intro e1 e2
    rw [cross_outcome_setPE ext st trader tok toTok amount min_return e1 hat,
      cross_outcome_setPE ext st trader tok toTok amount min_return e2 hat]

/-- Witness for C8: with connector 3's purchases disabled in `stW`, a BUY
from it and a CROSS into it fail, while the SELL outcome is the same with
the flag off as with it on. -/
theorem C8_witness :
    (_buy extW (setPurchaseEnabled stW 3 false) 5 3 5 1).isOk = false ∧
    Res.outcome (_sell extW (setPurchaseEnabled (setPurchaseEnabled stW 3 false)
        3 false) 5 3 50 1) =
      Res.outcome (_sell extW (setPurchaseEnabled (setPurchaseEnabled stW 3
        false) 3 true) 5 3 50 1) := by
  have h := C8_purchase_disable_scope extW (setPurchaseEnabled stW 3 false)
    5 4 4 3 5 1 (by decide) (by decide)
  exact ⟨h.1, (C8_purchase_disable_scope extW (setPurchaseEnabled stW 3 false)
    5 4 4 3 50 1 (by decide) (by decide)).2.2.1 false true⟩

end ClaimC8



end IconDex
